import Mathlib

/-!
Shallow embedding of the frame scheduler and presentation loop of
`src/hello_triangle` (files `mod.rs` and `frame_counter.rs`), together
with proofs of the spec's claims about it.

Time is modelled in milliseconds as exact rationals (`ℚ`): `web_time::Instant`
becomes a rational timestamp and `Duration` a rational number of milliseconds.
The Rust `f32` arithmetic of `FrameCounter` is carried out exactly over `ℚ`;
the comparisons and divisions in the source involve only values that are
exactly representable at the points the claims examine.
-/

namespace HelloTriangle

/-- Rust `Instant::duration_since`: elapsed time from `earlier` to `now`,
saturating at zero when `now` is earlier (`web_time` mirrors `std`). -/
def durationSince (now earlier : ℚ) : ℚ := max (now - earlier) 0

/-! ## FrameCounter (frame_counter.rs) -/

/-- State of `FrameCounter` (frame_counter.rs). `last_printed_instant` is a
timestamp in milliseconds; `last_fps` and `last_frame_time` are the committed
statistics (frames per second, milliseconds per frame). -/
structure FrameCounter where
  last_printed_instant : ℚ
  frame_count : ℕ
  last_fps : ℚ
  last_frame_time : ℚ
  deriving Repr, DecidableEq

/-- Source `FrameCounter::new()`: zero frames, zero stats, window start at the
current instant. -/
def FrameCounter.new (now : ℚ) : FrameCounter :=
  { last_printed_instant := now
    frame_count := 0
    last_fps := 0
    last_frame_time := 0 }

/-- Source `FrameCounter::update(&mut self)` at instant `now` (milliseconds):
increment `frame_count`; compute `elapsed_secs`; if `elapsed_secs > 1.0`,
commit `frame_time = elapsed_ms / frame_count` and
`fps = frame_count / elapsed_secs`, reset the counter and the window start. -/
def FrameCounter.update (fc : FrameCounter) (now : ℚ) : FrameCounter :=
  let frame_count := fc.frame_count + 1
  let elapsed_secs := durationSince now fc.last_printed_instant / 1000
  if elapsed_secs > 1 then
    let elapsed_ms := elapsed_secs * 1000
    let frame_time := elapsed_ms / (frame_count : ℚ)
    let fps := (frame_count : ℚ) / elapsed_secs
    { last_printed_instant := now
      frame_count := 0
      last_fps := fps
      last_frame_time := frame_time }
  else
    { fc with frame_count := frame_count }

/-- Source `get_last_fps()`: pure read of the committed fps. -/
def FrameCounter.get_last_fps (fc : FrameCounter) : ℚ := fc.last_fps

/-- Source `get_last_frame_time()`: pure read of the committed frame time. -/
def FrameCounter.get_last_frame_time (fc : FrameCounter) : ℚ := fc.last_frame_time

/-- Iterated `update` over a list of instants, in order. -/
def FrameCounter.updates (fc : FrameCounter) : List ℚ → FrameCounter
  | [] => fc
  | t :: ts => (fc.update t).updates ts

/-! ## Presenter (Framework::render_frame, mod.rs) -/

/-- Clear color of the render pass: `wgpu::Color::GREEN` = (r 0, g 1, b 0, a 1). -/
structure Color where
  r : ℚ
  g : ℚ
  b : ℚ
  a : ℚ
  deriving Repr, DecidableEq

def Color.GREEN : Color := { r := 0, g := 1, b := 0, a := 1 }

/-- Model of `wgpu::LoadOp` for the color attachment. -/
inductive LoadOp where
  | clear (c : Color)
  | load
  deriving Repr, DecidableEq

/-- Model of `wgpu::StoreOp` for the color attachment. -/
inductive StoreOp where
  | store
  | discard
  deriving Repr, DecidableEq

/-- The observable operations `Framework::render_frame` performs, in order. -/
inductive RenderOp where
  | acquireTarget
  | createView
  | createEncoder
  | beginRenderPass (lo : LoadOp) (so : StoreOp)
  | setPipeline
  | draw (vertexStart vertexEnd instanceStart instanceEnd : ℕ)
  | endRenderPass
  | queueSubmit
  | present
  | frameCounterUpdate
  deriving Repr, DecidableEq

/-- Result of `Surface::get_current_texture()`: either a presentable target or
an acquisition failure (e.g. the surface was lost). -/
inductive AcquireResult where
  | ok
  | surfaceLost
  deriving Repr, DecidableEq

/-- Outcome of a call to `render_frame`: either the cycle completed, emitting
the listed operations and the updated frame counter, or the process panicked
(`expect`) after the listed operations. -/
inductive RenderOutcome where
  | completed (ops : List RenderOp) (fc : FrameCounter)
  | panicked (msg : String) (ops : List RenderOp)
  deriving Repr, DecidableEq

def RenderOutcome.isPanic : RenderOutcome → Bool
  | .completed _ _ => false
  | .panicked _ _ => true

/-- Operation trace of the successful path of `Framework::render_frame`:
acquire, derive a view, record one render pass (clear to GREEN, store, bind
pipeline, `draw(0..3, 0..1)`), submit, present, update the frame counter. -/
def successRenderOps : List RenderOp :=
  [ RenderOp.acquireTarget
  , RenderOp.createView
  , RenderOp.createEncoder
  , RenderOp.beginRenderPass (LoadOp.clear Color.GREEN) StoreOp.store
  , RenderOp.setPipeline
  , RenderOp.draw 0 3 0 1
  , RenderOp.endRenderPass
  , RenderOp.queueSubmit
  , RenderOp.present
  , RenderOp.frameCounterUpdate ]

/-- Source `Framework::render_frame(&mut self)` at instant `now`, with the result of
`get_current_texture()` made explicit. The source calls
`.expect("Failed to acquire next swap chain texture")` on the acquire result:
a failure panics immediately; on success the fixed command sequence runs and
`frame_counter.update()` is called once. -/
def render_frame (acquire : AcquireResult) (fc : FrameCounter) (now : ℚ) :
    RenderOutcome :=
  match acquire with
  | .surfaceLost =>
      .panicked "Failed to acquire next swap chain texture" [RenderOp.acquireTarget]
  | .ok => .completed successRenderOps (fc.update now)

/-! ## FrameScheduler (Framework::run_loop, mod.rs) -/

/-- Constant `const FPS: u64 = 30`. -/
def FPS : ℕ := 30

/-- Constant `const FRAME_DURATION: Duration = Duration::from_millis(1000 / FPS)`:
u64 integer division, so 33 milliseconds. -/
def FRAME_DURATION : ℚ := ((1000 / FPS : ℕ) : ℚ)

/-- The window events the loop handles (winit `WindowEvent`). -/
inductive WinEvent where
  | resized (width height : ℕ)
  | redrawRequested
  | closeRequested
  deriving Repr, DecidableEq

/-- Externally observable effects of one pass through the event callback. -/
inductive Effect where
  | setTitle (fps : ℚ)
  | surfaceConfigure (width height : ℕ)
  | renderFrame
  | requestRedraw
  | exitLoop
  deriving Repr, DecidableEq

/-- The mutable state the `run_loop` callback closes over: the stored
`SurfaceConfiguration` size, the gate's `last_frame_time`, the frame counter,
and whether `target.exit()` has been called. -/
structure LoopState where
  config_width : ℕ
  config_height : ℕ
  last_frame_time : ℚ
  frame_counter : FrameCounter
  exited : Bool
  deriving Repr, DecidableEq

/-- Source `Framework::new` clamps the initial window size to ≥ 1 in each dimension
(`size.width.max(1)`, `size.height.max(1)`) before configuring the surface;
`run_loop` then sets `last_frame_time = Instant::now()` at entry (`start`). -/
def initState (w h : ℕ) (start : ℚ) : LoopState :=
  { config_width := max w 1
    config_height := max h 1
    last_frame_time := start
    frame_counter := FrameCounter.new start
    exited := false }

/-- One pass through the event callback of `run_loop` at instant `now`:
* `Resized(new_size)`: clamp to ≥ 1, store into the config, reconfigure the
  surface, request a redraw;
* `RedrawRequested`: set the window title from `get_last_fps()`, then if
  `now.duration_since(last_frame_time) >= FRAME_DURATION` record `now` as
  `last_frame_time` and run `render_frame` (successful-acquisition path),
  and in either case request the next redraw;
* `CloseRequested`: `target.exit()`. -/
def handleEvent (st : LoopState) (now : ℚ) : WinEvent → LoopState × List Effect
  | .resized w h =>
      let width := max w 1
      let height := max h 1
      ({ st with config_width := width, config_height := height },
       [Effect.surfaceConfigure width height, Effect.requestRedraw])
  | .redrawRequested =>
      let titleEff := Effect.setTitle st.frame_counter.get_last_fps
      if FRAME_DURATION ≤ durationSince now st.last_frame_time then
        ({ st with
            last_frame_time := now
            frame_counter := st.frame_counter.update now },
         [titleEff, Effect.renderFrame, Effect.requestRedraw])
      else
        (st, [titleEff, Effect.requestRedraw])
  | .closeRequested => ({ st with exited := true }, [Effect.exitLoop])

/-- Run the event loop over a list of timestamped events, collecting the
effects of each pass; after `target.exit()` no further events are handled. -/
def runLoop (st : LoopState) : List (ℚ × WinEvent) → LoopState × List (ℚ × List Effect)
  | [] => (st, [])
  | (t, ev) :: rest =>
      if st.exited then (st, [])
      else
        ((runLoop (handleEvent st t ev).1 rest).1,
         (t, (handleEvent st t ev).2) :: (runLoop (handleEvent st t ev).1 rest).2)

/-- Instants at which a render cycle actually executed during a run. -/
def fireTimes (st : LoopState) (evs : List (ℚ × WinEvent)) : List ℚ :=
  (((runLoop st evs).2.filter (fun p => decide (Effect.renderFrame ∈ p.2))).map Prod.fst)

/-- The ten redraw notifications of the spec's throttling scenario: 5 ms
apart, the first at instant `s`. -/
def c3Events (s : ℚ) : List (ℚ × WinEvent) :=
  [ (s, WinEvent.redrawRequested)
  , (s + 5, WinEvent.redrawRequested)
  , (s + 10, WinEvent.redrawRequested)
  , (s + 15, WinEvent.redrawRequested)
  , (s + 20, WinEvent.redrawRequested)
  , (s + 25, WinEvent.redrawRequested)
  , (s + 30, WinEvent.redrawRequested)
  , (s + 35, WinEvent.redrawRequested)
  , (s + 40, WinEvent.redrawRequested)
  , (s + 45, WinEvent.redrawRequested) ]

/-! ## Basic lemmas -/

lemma FRAME_DURATION_eq : FRAME_DURATION = 33 := by norm_num [FRAME_DURATION, FPS]

/-- The gate test in `run_loop` compares a saturating duration, but since the
target period is positive this is the plain difference test. -/
lemma gate_iff (now last : ℚ) :
    FRAME_DURATION ≤ durationSince now last ↔ FRAME_DURATION ≤ now - last := by
  rw [FRAME_DURATION_eq, durationSince, le_max_iff]
  norm_num

lemma fireTimes_nil (st : LoopState) : fireTimes st [] = [] := rfl

lemma fireTimes_exited (st : LoopState) (evs : List (ℚ × WinEvent))
    (hex : st.exited = true) : fireTimes st evs = [] := by
  cases evs with
  | nil => rfl
  | cons p rest =>
      obtain ⟨t, ev⟩ := p
      simp [fireTimes, runLoop, hex]

lemma fireTimes_resize (st : LoopState) (t : ℚ) (w h : ℕ)
    (rest : List (ℚ × WinEvent)) (hex : st.exited = false) :
    fireTimes st ((t, WinEvent.resized w h) :: rest) =
      fireTimes { st with config_width := max w 1, config_height := max h 1 } rest := by
  simp [fireTimes, runLoop, hex, handleEvent]

lemma fireTimes_close (st : LoopState) (t : ℚ) (rest : List (ℚ × WinEvent))
    (hex : st.exited = false) :
    fireTimes st ((t, WinEvent.closeRequested) :: rest) =
      fireTimes { st with exited := true } rest := by
  simp [fireTimes, runLoop, hex, handleEvent]

lemma fireTimes_redraw_fire (st : LoopState) (t : ℚ) (rest : List (ℚ × WinEvent))
    (hex : st.exited = false) (hg : FRAME_DURATION ≤ t - st.last_frame_time) :
    fireTimes st ((t, WinEvent.redrawRequested) :: rest) =
      t :: fireTimes
        { st with last_frame_time := t
                  frame_counter := st.frame_counter.update t } rest := by
  have hg' : FRAME_DURATION ≤ durationSince t st.last_frame_time := (gate_iff _ _).mpr hg
  simp [fireTimes, runLoop, hex, handleEvent, hg']

lemma fireTimes_redraw_skip (st : LoopState) (t : ℚ) (rest : List (ℚ × WinEvent))
    (hex : st.exited = false) (hg : t - st.last_frame_time < FRAME_DURATION) :
    fireTimes st ((t, WinEvent.redrawRequested) :: rest) = fireTimes st rest := by
  have hg' : ¬ FRAME_DURATION ≤ durationSince t st.last_frame_time := by
    rw [gate_iff]; exact not_le.mpr hg
  simp [fireTimes, runLoop, hex, handleEvent, hg']

/-- During any run, consecutive render cycles are at least `FRAME_DURATION`
apart, and the first one fires at least `FRAME_DURATION` after the state's
`last_frame_time`. -/
lemma fireTimes_chain_aux (evs : List (ℚ × WinEvent)) : ∀ st : LoopState,
    List.Chain' (fun a b => FRAME_DURATION ≤ b - a) (fireTimes st evs) ∧
    ∀ f, (fireTimes st evs).head? = some f → FRAME_DURATION ≤ f - st.last_frame_time := by
  induction evs with
  | nil => intro st; simp [fireTimes_nil]
  | cons p rest ih =>
      intro st
      obtain ⟨t, ev⟩ := p
      by_cases hex : st.exited = true
      · simp [fireTimes_exited _ _ hex]
      · rw [Bool.not_eq_true] at hex
        cases ev with
        | resized w h =>
            rw [fireTimes_resize st t w h rest hex]
            exact ih _
        | closeRequested =>
            rw [fireTimes_close st t rest hex]
            have hex' : ({ st with exited := true } : LoopState).exited = true := rfl
            simp [fireTimes_exited _ rest hex']
        | redrawRequested =>
            by_cases hg : FRAME_DURATION ≤ t - st.last_frame_time
            · rw [fireTimes_redraw_fire st t rest hex hg]
              obtain ⟨ihc, ihh⟩ := ih
                { st with last_frame_time := t
                          frame_counter := st.frame_counter.update t }
              refine ⟨List.chain'_cons'.mpr ⟨?_, ihc⟩, ?_⟩
              · intro b hb
                exact ihh b hb
              · intro f hf
                simp only [List.head?_cons, Option.some.injEq] at hf
                exact hf ▸ hg
            · rw [fireTimes_redraw_skip st t rest hex (not_le.mp hg)]
              exact ih st

/-! ## Claim theorems -/

/-- C1: in any run of the loop, a render cycle executes on a redraw
notification exactly when `now − last_frame_time ≥ FRAME_DURATION`; when it
fires, `last_frame_time` is set to `now` itself (not to the ideal next tick);
consequently any two consecutive render-cycle instants of a run differ by at
least `FRAME_DURATION`. -/
theorem C1_gate_throttle (st : LoopState) (evs : List (ℚ × WinEvent)) (now : ℚ) :
    List.Chain' (fun a b => FRAME_DURATION ≤ b - a) (fireTimes st evs) ∧
    (Effect.renderFrame ∈ (handleEvent st now WinEvent.redrawRequested).2 ↔
      FRAME_DURATION ≤ durationSince now st.last_frame_time) ∧
    (handleEvent st now WinEvent.redrawRequested).1.last_frame_time =
      (if FRAME_DURATION ≤ durationSince now st.last_frame_time then now
       else st.last_frame_time) := by
  refine ⟨(fireTimes_chain_aux evs st).1, ?_, ?_⟩
  · constructor
    · intro hmem
      by_contra hg
      simp [handleEvent, hg] at hmem
    · intro hg
      simp [handleEvent, hg]
  · by_cases hg : FRAME_DURATION ≤ durationSince now st.last_frame_time
    · simp [handleEvent, hg]
    · simp [handleEvent, hg]

/-- C3 counterexample: `run_loop` initializes the gate's `last_frame_time` to
the instant the loop starts. If the 10 notifications (5 ms apart) begin at
that same instant (both at 0 here), the first redraw finds only 0 ms elapsed,
so it is skipped: exactly one render cycle executes (at t = 35 ms), not the
two the claim asserts. -/
theorem C3_counterexample :
    fireTimes (initState 800 600 0) (c3Events 0) = [35] ∧
    (fireTimes (initState 800 600 0) (c3Events 0)).length ≠ 2 := by
  have h : fireTimes (initState 800 600 0) (c3Events 0) = [35] := by
    norm_num [fireTimes, runLoop, handleEvent, initState, durationSince,
      FRAME_DURATION, FPS, FrameCounter.update, FrameCounter.new, c3Events,
      FrameCounter.get_last_fps]
    decide
  exact ⟨h, by rw [h]; decide⟩

/-- C3 amended: provided at least one target period (33 ms) has elapsed
between the gate's initialization and the first notification (so the gate is
open at t = 0 relative time), exactly 2 of the 10 render cycles execute — at
the first notification and at the first notification at or after 33 ms later,
i.e. at relative instants 0 and 35 ms — and the remaining 8 are skipped. -/
theorem C3_amended (s : ℚ) (h : FRAME_DURATION ≤ s) :
    fireTimes (initState 800 600 0) (c3Events s) = [s, s + 35] ∧
    (fireTimes (initState 800 600 0) (c3Events s)).length = 2 ∧
    (c3Events s).length = 10 := by
  have h33 : (33:ℚ) ≤ s := by rwa [FRAME_DURATION_eq] at h
  have key : fireTimes (initState 800 600 0) (c3Events s) = [s, s + 35] := by
    show fireTimes (initState 800 600 0)
      [ (s, WinEvent.redrawRequested), (s + 5, WinEvent.redrawRequested),
        (s + 10, WinEvent.redrawRequested), (s + 15, WinEvent.redrawRequested),
        (s + 20, WinEvent.redrawRequested), (s + 25, WinEvent.redrawRequested),
        (s + 30, WinEvent.redrawRequested), (s + 35, WinEvent.redrawRequested),
        (s + 40, WinEvent.redrawRequested), (s + 45, WinEvent.redrawRequested) ]
        = [s, s + 35]
    rw [fireTimes_redraw_fire _ _ _ rfl (by simp [initState, FRAME_DURATION_eq]; linarith)]
    rw [fireTimes_redraw_skip _ _ _ rfl (by simp [FRAME_DURATION_eq]; linarith)]
    rw [fireTimes_redraw_skip _ _ _ rfl (by simp [FRAME_DURATION_eq]; linarith)]
    rw [fireTimes_redraw_skip _ _ _ rfl (by simp [FRAME_DURATION_eq]; linarith)]
    rw [fireTimes_redraw_skip _ _ _ rfl (by simp [FRAME_DURATION_eq]; linarith)]
    rw [fireTimes_redraw_skip _ _ _ rfl (by simp [FRAME_DURATION_eq]; linarith)]
    rw [fireTimes_redraw_skip _ _ _ rfl (by simp [FRAME_DURATION_eq]; linarith)]
    rw [fireTimes_redraw_fire _ _ _ rfl (by simp [FRAME_DURATION_eq]; linarith)]
    rw [fireTimes_redraw_skip _ _ _ rfl (by simp [FRAME_DURATION_eq]; linarith)]
    rw [fireTimes_redraw_skip _ _ _ rfl (by simp [FRAME_DURATION_eq]; linarith)]
    rw [fireTimes_nil]
  exact ⟨key, by rw [key]; rfl, rfl⟩

/-- Witness for C3 amended at the concrete offset 33 ms. -/
theorem C3_amended_witness :
    FRAME_DURATION ≤ (33:ℚ) ∧
    fireTimes (initState 800 600 0) (c3Events 33) = [33, 33 + 35] :=
  ⟨by rw [FRAME_DURATION_eq], (C3_amended 33 (by rw [FRAME_DURATION_eq])).1⟩

/-- C2 counterexample: when `get_current_texture()` fails, `render_frame`
panics (the source calls `.expect(...)`); the failure is not propagated as a
retryable error, no reconfigure happens, and only a single acquisition is
attempted — the claimed reconfigure-and-retry-once policy does not exist. -/
theorem C2_counterexample :
    (render_frame AcquireResult.surfaceLost (FrameCounter.new 0) 0).isPanic = true ∧
    render_frame AcquireResult.surfaceLost (FrameCounter.new 0) 0 =
      RenderOutcome.panicked "Failed to acquire next swap chain texture"
        [RenderOp.acquireTarget] := by
  exact ⟨rfl, rfl⟩

/-- C2 amended: when acquiring the presentable target fails, the program
panics with the diagnostic "Failed to acquire next swap chain texture" after
exactly one acquisition attempt; there is no reconfigure, no retry, and the
render cycle performs nothing else. Any acquisition failure is fatal. -/
theorem C2_amended_panic_on_acquire_failure (fc : FrameCounter) (now : ℚ) :
    render_frame AcquireResult.surfaceLost fc now =
      RenderOutcome.panicked "Failed to acquire next swap chain texture"
        [RenderOp.acquireTarget] ∧
    (render_frame AcquireResult.surfaceLost fc now).isPanic = true := by
  exact ⟨rfl, rfl⟩

/-- C6: a completed render cycle performs, in order: acquire the target,
derive a view, record one render pass whose color attachment is loaded with a
clear (to GREEN) and stored, with exactly one draw of vertices `0..3` and
instances `0..1`, then submit, present, and finally call
`frame_counter.update()` exactly once. -/
theorem C6_render_cycle_sequence (fc : FrameCounter) (now : ℚ) :
    render_frame AcquireResult.ok fc now =
      RenderOutcome.completed successRenderOps (fc.update now) ∧
    successRenderOps.count (RenderOp.draw 0 3 0 1) = 1 ∧
    successRenderOps.count RenderOp.frameCounterUpdate = 1 ∧
    List.Sublist
      [ RenderOp.acquireTarget, RenderOp.createView
      , RenderOp.beginRenderPass (LoadOp.clear Color.GREEN) StoreOp.store
      , RenderOp.setPipeline, RenderOp.draw 0 3 0 1
      , RenderOp.queueSubmit, RenderOp.present, RenderOp.frameCounterUpdate ]
      successRenderOps := by
  refine ⟨rfl, by decide, by decide, by decide⟩

/-- C4 counterexample: with the sample window opened at instant 0 and a
single `update()` at instant 1000 ms, the elapsed time is exactly 1.0 second,
yet no statistics are committed and the frame counter is not reset (it is 1,
not 0): the source's test is the strict `elapsed_secs > 1.0`, not the claimed
`≥ 1.0`. -/
theorem C4_counterexample :
    durationSince 1000 (FrameCounter.new 0).last_printed_instant / 1000 = 1 ∧
    (FrameCounter.new 0).update 1000 =
      { last_printed_instant := 0, frame_count := 1
        last_fps := 0, last_frame_time := 0 } := by
  constructor
  · norm_num [durationSince, FrameCounter.new]
  · norm_num [FrameCounter.new, FrameCounter.update, durationSince]

/-- C4 amended: `update()` commits statistics exactly when the elapsed time
strictly exceeds 1.0 second. On commit it stores
`frame_time_ms = elapsed_ms / frame_count` and
`fps = frame_count / elapsed_seconds` (with `frame_count` counting the
current call), resets the counter to 0 and the window start to now; when
elapsed ≤ 1.0 second it only increments the frame counter. -/
theorem C4_amended_update_commit_strict (fc : FrameCounter) (now : ℚ) :
    (1 < durationSince now fc.last_printed_instant / 1000 →
       (fc.update now).last_frame_time =
         (durationSince now fc.last_printed_instant / 1000 * 1000) /
           ((fc.frame_count + 1 : ℕ) : ℚ) ∧
       (fc.update now).last_fps =
         ((fc.frame_count + 1 : ℕ) : ℚ) /
           (durationSince now fc.last_printed_instant / 1000) ∧
       (fc.update now).frame_count = 0 ∧
       (fc.update now).last_printed_instant = now) ∧
    (durationSince now fc.last_printed_instant / 1000 ≤ 1 →
       (fc.update now).last_fps = fc.last_fps ∧
       (fc.update now).last_frame_time = fc.last_frame_time ∧
       (fc.update now).last_printed_instant = fc.last_printed_instant ∧
       (fc.update now).frame_count = fc.frame_count + 1) := by
  constructor
  · intro hc
    simp [FrameCounter.update, hc]
  · intro hc
    simp [FrameCounter.update, not_lt.mpr hc]

/-- Witness for C4 amended: a commit at 1.5 s elapsed, a no-op at 0.5 s. -/
theorem C4_amended_update_commit_strict_witness :
    (1 < durationSince 1500 (FrameCounter.new 0).last_printed_instant / 1000 ∧
     ((FrameCounter.new 0).update 1500).frame_count = 0) ∧
    (durationSince 1000 (FrameCounter.new 500).last_printed_instant / 1000 ≤ 1 ∧
     ((FrameCounter.new 500).update 1000).frame_count =
       (FrameCounter.new 500).frame_count + 1) :=
  ⟨⟨by norm_num [durationSince, FrameCounter.new],
    ((C4_amended_update_commit_strict (FrameCounter.new 0) 1500).1
      (by norm_num [durationSince, FrameCounter.new])).2.2.1⟩,
   ⟨by norm_num [durationSince, FrameCounter.new],
    ((C4_amended_update_commit_strict (FrameCounter.new 500) 1000).2
      (by norm_num [durationSince, FrameCounter.new])).2.2.2⟩⟩

/-- Statistics committed by `update` are never negative: preserved by one
call. -/
lemma update_nonneg (fc : FrameCounter) (t : ℚ)
    (hfps : 0 ≤ fc.last_fps) (hft : 0 ≤ fc.last_frame_time) :
    0 ≤ (fc.update t).last_fps ∧ 0 ≤ (fc.update t).last_frame_time := by
  by_cases hc : 1 < durationSince t fc.last_printed_instant / 1000
  · have hpos : (0:ℚ) < durationSince t fc.last_printed_instant / 1000 := by linarith
    have hcount : (0:ℚ) < ((fc.frame_count + 1 : ℕ) : ℚ) := by positivity
    constructor
    · simp only [FrameCounter.update, hc, if_pos]
      positivity
    · simp only [FrameCounter.update, hc, if_pos]
      positivity
  · simp [FrameCounter.update, hc, hfps, hft]

/-- Nonnegativity of statistics along any sequence of updates. -/
lemma updates_nonneg (ts : List ℚ) : ∀ fc : FrameCounter,
    0 ≤ fc.last_fps → 0 ≤ fc.last_frame_time →
    0 ≤ (fc.updates ts).last_fps ∧ 0 ≤ (fc.updates ts).last_frame_time := by
  induction ts with
  | nil => intro fc hfps hft; exact ⟨hfps, hft⟩
  | cons t ts ih =>
      intro fc hfps hft
      obtain ⟨h1, h2⟩ := update_nonneg fc t hfps hft
      exact ih _ h1 h2

/-- C10: the counter is incremented before the elapsed-time test, so in the
commit branch the divisor is `frame_count + 1 ≥ 1` — never zero — and the
committed `fps` is that count divided by the elapsed seconds, both committed
values being strictly positive; along any sequence of `update()` calls from a
fresh counter the stored statistics stay non-negative. -/
theorem C10_divisor_positive_stats_nonneg (t0 : ℚ) (ts : List ℚ)
    (fc : FrameCounter) (now : ℚ)
    (hcommit : 1 < durationSince now fc.last_printed_instant / 1000) :
    (1:ℚ) ≤ ((fc.frame_count + 1 : ℕ) : ℚ) ∧
    (fc.update now).last_fps =
      ((fc.frame_count + 1 : ℕ) : ℚ) /
        (durationSince now fc.last_printed_instant / 1000) ∧
    0 < (fc.update now).last_fps ∧
    0 < (fc.update now).last_frame_time ∧
    0 ≤ ((FrameCounter.new t0).updates ts).last_fps ∧
    0 ≤ ((FrameCounter.new t0).updates ts).last_frame_time := by
  have hpos : (0:ℚ) < durationSince now fc.last_printed_instant / 1000 := by linarith
  have hcount : (0:ℚ) < ((fc.frame_count + 1 : ℕ) : ℚ) := by positivity
  have hseq := updates_nonneg ts (FrameCounter.new t0) le_rfl le_rfl
  refine ⟨by exact_mod_cast Nat.succ_le_succ (Nat.zero_le _), ?_, ?_, ?_, hseq.1, hseq.2⟩
  · simp [FrameCounter.update, hcommit]
  · simp only [FrameCounter.update, hcommit, if_pos]
    positivity
  · simp only [FrameCounter.update, hcommit, if_pos]
    positivity

/-- Witness for C10 at a concrete committing call. -/
theorem C10_divisor_positive_stats_nonneg_witness :
    1 < durationSince 1500 (FrameCounter.new 0).last_printed_instant / 1000 ∧
    0 < ((FrameCounter.new 0).update 1500).last_fps ∧
    0 ≤ ((FrameCounter.new 0).updates [400, 800, 1200]).last_fps :=
  ⟨by norm_num [durationSince, FrameCounter.new],
   (C10_divisor_positive_stats_nonneg 0 [400, 800, 1200] (FrameCounter.new 0) 1500
      (by norm_num [durationSince, FrameCounter.new])).2.2.1,
   (C10_divisor_positive_stats_nonneg 0 [400, 800, 1200] (FrameCounter.new 0) 1500
      (by norm_num [durationSince, FrameCounter.new])).2.2.2.2.1⟩

/-- One event-loop pass keeps the stored surface size at least 1×1. -/
lemma handleEvent_clamp (st : LoopState) (now : ℚ) (ev : WinEvent)
    (hw : 1 ≤ st.config_width) (hh : 1 ≤ st.config_height) :
    1 ≤ (handleEvent st now ev).1.config_width ∧
    1 ≤ (handleEvent st now ev).1.config_height := by
  cases ev with
  | resized w h => exact ⟨le_max_right w 1, le_max_right h 1⟩
  | redrawRequested =>
      by_cases hg : FRAME_DURATION ≤ durationSince now st.last_frame_time <;>
        simp [handleEvent, hg, hw, hh]
  | closeRequested => exact ⟨hw, hh⟩

/-- Any run of the loop keeps the stored surface size at least 1×1. -/
lemma runLoop_clamp (evs : List (ℚ × WinEvent)) : ∀ st : LoopState,
    1 ≤ st.config_width → 1 ≤ st.config_height →
    1 ≤ (runLoop st evs).1.config_width ∧
    1 ≤ (runLoop st evs).1.config_height := by
  induction evs with
  | nil => intro st hw hh; exact ⟨hw, hh⟩
  | cons p rest ih =>
      intro st hw hh
      obtain ⟨t, ev⟩ := p
      by_cases hex : st.exited = true
      · simpa [runLoop, hex] using And.intro hw hh
      · rw [Bool.not_eq_true] at hex
        have h' := handleEvent_clamp st t ev hw hh
        simp only [runLoop, hex, Bool.false_eq_true, if_false]
        exact ih _ h'.1 h'.2

/-- C5: starting from the clamped initial configuration of `Framework::new`,
every run of the loop keeps the stored width and height at least 1; a resize
notification reporting (0,0) stores exactly (1,1); and initialization with a
reported (0,0) window also stores (1,1). -/
theorem C5_config_dims_positive (w h : ℕ) (start : ℚ)
    (evs : List (ℚ × WinEvent)) (st : LoopState) (now : ℚ) :
    (1 ≤ (runLoop (initState w h start) evs).1.config_width ∧
     1 ≤ (runLoop (initState w h start) evs).1.config_height) ∧
    ((handleEvent st now (WinEvent.resized 0 0)).1.config_width = 1 ∧
     (handleEvent st now (WinEvent.resized 0 0)).1.config_height = 1) ∧
    ((initState 0 0 start).config_width = 1 ∧
     (initState 0 0 start).config_height = 1) := by
  refine ⟨runLoop_clamp evs _ (le_max_right w 1) (le_max_right h 1), ?_, ?_⟩
  · constructor <;> rfl
  · constructor <;> rfl

/-- C7 counterexample: only 5 ms after the gate's initialization the gate is
closed, yet handling the redraw notification still emits the title update
(and performs no render cycle): the title is not updated "only when the
timing gate is open", nor after the render cycle — the source sets the title
first, unconditionally. -/
theorem C7_counterexample :
    Effect.setTitle 0 ∈
      (handleEvent (initState 800 600 0) 5 WinEvent.redrawRequested).2 ∧
    Effect.renderFrame ∉
      (handleEvent (initState 800 600 0) 5 WinEvent.redrawRequested).2 := by
  norm_num [handleEvent, initState, durationSince, FRAME_DURATION, FPS,
    FrameCounter.new, FrameCounter.get_last_fps]
  exact ⟨fun hc => Effect.noConfusion hc, fun hc => Effect.noConfusion hc⟩

/-- C7 amended: on every redraw notification — gate open or closed — the
first effect is the title update, computed from `get_last_fps()` of the
statistics as they stood before any render cycle of this pass, and the last
effect is the request for the next redraw. -/
theorem C7_amended_title_first_unconditional (st : LoopState) (now : ℚ) :
    ((handleEvent st now WinEvent.redrawRequested).2).head? =
      some (Effect.setTitle st.frame_counter.get_last_fps) ∧
    ((handleEvent st now WinEvent.redrawRequested).2).getLast? =
      some Effect.requestRedraw := by
  by_cases hg : FRAME_DURATION ≤ durationSince now st.last_frame_time <;>
    simp [handleEvent, hg]

/-- C8: handling a redraw notification requests the next redraw whether the
gate fires or not, and handling a resize notification also requests a
redraw. -/
theorem C8_always_rerequests_redraw (st : LoopState) (now : ℚ) (w h : ℕ) :
    Effect.requestRedraw ∈ (handleEvent st now WinEvent.redrawRequested).2 ∧
    Effect.requestRedraw ∈ (handleEvent st now (WinEvent.resized w h)).2 := by
  constructor
  · by_cases hg : FRAME_DURATION ≤ durationSince now st.last_frame_time <;>
      simp [handleEvent, hg]
  · simp [handleEvent]

/-- C9: handling a second resize notification with the same reported size
leaves the loop state exactly as after the first (same stored surface
configuration, same everything else) and emits the same effects —
reconfiguring with an unchanged size is idempotent. -/
theorem C9_reconfigure_idempotent (st : LoopState) (t t' : ℚ) (w h : ℕ) :
    (handleEvent (handleEvent st t (WinEvent.resized w h)).1 t'
        (WinEvent.resized w h)).1 =
      (handleEvent st t (WinEvent.resized w h)).1 ∧
    (handleEvent (handleEvent st t (WinEvent.resized w h)).1 t'
        (WinEvent.resized w h)).2 =
      (handleEvent st t (WinEvent.resized w h)).2 := by
  constructor <;> simp [handleEvent]

end HelloTriangle
